import Mathlib

/- Shallow embedding of the split_funds program
(programs/split-funds/src/lib.rs): a group cost-splitting escrow with the
four instructions create_group, invite_member, deposit_funds and
execute_payout.  Pubkeys are modelled as Nat; u64 fields as Nat, with an
explicit % 2 ^ 64 at the single unchecked addition
(escrow.total_held += amount, release-mode wrapping semantics); i64
timestamps as Int; fallible instructions return Except. -/

namespace SplitFunds

/-- Modulus of the 64-bit unsigned integers used by the program state. -/
def U64_MOD : Nat := 2 ^ 64

/-- Modelled from the spec: an account of the external asset ledger (the
SPL token program is not part of this repository).  Per §6 the external
primitive is transfer(from, to, authority, amount) with outcomes ok,
insufficient_balance or unauthorized. -/
structure TokenAccount where
  owner : Nat
  amount : Nat
deriving DecidableEq

/-- Errors of the external asset-transfer primitive (§6). -/
inductive TransferError where
  | insufficient_balance
  | unauthorized
deriving DecidableEq

/-- Modelled from the spec: the external asset-transfer primitive.  Moves
`amount` from `src` to `dst` when `authority` owns `src` and the balance
suffices; otherwise it fails with no effect. -/
def transfer (src dst : TokenAccount) (authority : Nat) (amount : Nat) :
    Except TransferError (TokenAccount × TokenAccount) :=
  if authority ≠ src.owner then .error .unauthorized
  else if src.amount < amount then .error .insufficient_balance
  else .ok ({ src with amount := src.amount - amount },
            { dst with amount := dst.amount + amount })

/-- Error codes declared by the program (enum CustomError in lib.rs). -/
inductive CustomError where
  | InactiveGroup
  | AlreadyPaid
  | TooEarly
deriving DecidableEq

/-- Result error of an instruction: one of the program's own error codes,
or a propagated error of the external token transfer (the `?` operator on
`token::transfer`). -/
inductive ProgErr where
  | custom (e : CustomError)
  | token (e : TransferError)
deriving DecidableEq

/-- Record GroupAccount of lib.rs. -/
structure GroupAccount where
  owner : Nat
  group_name : String
  total_cost : Nat
  subscription_due : Int
  member_count : Nat
  is_active : Bool
deriving DecidableEq

/-- Record MemberAccount of lib.rs. -/
structure MemberAccount where
  group : Nat
  member : Nat
  contributed : Nat
  has_paid : Bool
deriving DecidableEq

/-- Record EscrowAccount of lib.rs. -/
structure EscrowAccount where
  group : Nat
  total_held : Nat
  bump : Nat
deriving DecidableEq

/-- Modelled from the spec: the escrow's signing authority, derived
deterministically from the group identifier and the bump seed
(seeds = [group_key, bump] in execute_payout); the host's
program-derived-address function itself is not part of this repository,
so any injective pairing represents it. -/
def derivedAuthority (group_key bump : Nat) : Nat := Nat.pair group_key bump

/-- Instruction create_group: allocates the group record owned by the
caller, with member_count 0 and is_active true. -/
def create_group (owner : Nat) (group_name : String) (total_cost : Nat)
    (subscription_due : Int) : GroupAccount :=
  { owner := owner, group_name := group_name, total_cost := total_cost,
    subscription_due := subscription_due, member_count := 0,
    is_active := true }

/-- Accounts of the InviteMember context: the group (with its address
`group_key`) and the signing member authority; the member record itself is
freshly allocated by the host. -/
structure InviteMember where
  group : GroupAccount
  group_key : Nat
  member_authority : Nat
deriving DecidableEq

/-- Instruction invite_member: returns the group record (which the body
never writes) and the freshly initialized member record. -/
def invite_member (ctx : InviteMember) : GroupAccount × MemberAccount :=
  (ctx.group,
   { group := ctx.group_key, member := ctx.member_authority,
     contributed := 0, has_paid := false })

/-- Accounts of the DepositFunds context of lib.rs.  None of the Anchor
constraints bind `member`, `escrow` or the token accounts to `group`, nor
`member_authority` to `member.member`; `group_key` is the address of the
group account (unused by the instruction body). -/
structure DepositFunds where
  group : GroupAccount
  group_key : Nat
  member : MemberAccount
  member_authority : Nat
  from_token_account : TokenAccount
  escrow_token_account : TokenAccount
  escrow : EscrowAccount
deriving DecidableEq

/-- Instruction deposit_funds: requires the group active (else
InactiveGroup) and the member unpaid (else AlreadyPaid), performs the
token transfer authorized by member_authority, then records
member.contributed = amount, member.has_paid = true, and the unchecked
u64 addition escrow.total_held += amount (line 59). -/
def deposit_funds (ctx : DepositFunds) (amount : Nat) :
    Except ProgErr DepositFunds :=
  if ctx.group.is_active then
    if ctx.member.has_paid then .error (.custom .AlreadyPaid)
    else
      match transfer ctx.from_token_account ctx.escrow_token_account
          ctx.member_authority amount with
      | .error e => .error (.token e)
      | .ok (src, dst) =>
        .ok { ctx with
          from_token_account := src,
          escrow_token_account := dst,
          member := { ctx.member with
                        contributed := amount,
                        has_paid := true },
          escrow := { ctx.escrow with
            total_held := (ctx.escrow.total_held + amount) % U64_MOD } }
  else .error (.custom .InactiveGroup)

/-- Accounts of the ExecutePayout context of lib.rs; `group_key` is the
address of the group account, used for the escrow's signer seeds. -/
structure ExecutePayout where
  group : GroupAccount
  group_key : Nat
  escrow : EscrowAccount
  escrow_token_account : TokenAccount
  owner_token_account : TokenAccount
deriving DecidableEq

/-- Instruction execute_payout: requires now ≥ group.subscription_due
(else TooEarly), transfers escrow.total_held out of the escrow token
account under the derived escrow authority, then sets
group.is_active = false.  total_held is not re-zeroed and is_active is
not checked beforehand. -/
def execute_payout (ctx : ExecutePayout) (now : Int) :
    Except ProgErr ExecutePayout :=
  if ctx.group.subscription_due ≤ now then
    match transfer ctx.escrow_token_account ctx.owner_token_account
        (derivedAuthority ctx.group_key ctx.escrow.bump)
        ctx.escrow.total_held with
    | .error e => .error (.token e)
    | .ok (src, dst) =>
      .ok { ctx with
        escrow_token_account := src,
        owner_token_account := dst,
        group := { ctx.group with is_active := false } }
  else .error (.custom .TooEarly)

/-- Ledger state of one group: the group account stored at address
`group_key`, its escrow record, and the member records created against
it. -/
structure GState where
  group_key : Nat
  group : GroupAccount
  escrow : EscrowAccount
  members : List MemberAccount
deriving DecidableEq

/-- State right after create_group.  The escrow record starts with
total_held = 0 (modelled from the spec: total_held is the running sum of
accepted deposits, §3 — the escrow-creation step itself does not appear
in lib.rs). -/
def initState (group_key owner : Nat) (group_name : String)
    (total_cost : Nat) (subscription_due : Int) (bump : Nat) : GState :=
  { group_key := group_key,
    group := create_group owner group_name total_cost subscription_due,
    escrow := { group := group_key, total_held := 0, bump := bump },
    members := [] }

/-- One successful invite_member or deposit_funds call on the group.  The
deposit may use any signer and any token accounts, since the context
places no constraint on them; `amount` is a u64 instruction argument. -/
inductive GStep : GState → GState → Prop where
  | invite (s : GState) (auth : Nat) :
      GStep s { s with
        group := (invite_member ⟨s.group, s.group_key, auth⟩).1,
        members := s.members ++
          [(invite_member ⟨s.group, s.group_key, auth⟩).2] }
  | deposit (s : GState) (i : Nat) (hi : i < s.members.length) (auth : Nat)
      (ftk etk : TokenAccount) (amount : Nat) (hamt : amount < U64_MOD)
      (r : DepositFunds)
      (hok : deposit_funds
        ⟨s.group, s.group_key, s.members.get ⟨i, hi⟩, auth, ftk, etk,
         s.escrow⟩ amount = .ok r) :
      GStep s { s with
                  group := r.group,
                  escrow := r.escrow,
                  members := s.members.set i r.member }

/-- Reachability: the states produced by create_group followed by any
sequence of successful invite_member / deposit_funds calls (before any
payout). -/
inductive GReach : GState → Prop where
  | init (group_key owner : Nat) (group_name : String) (total_cost : Nat)
      (subscription_due : Int) (bump : Nat) :
      GReach (initState group_key owner group_name total_cost
        subscription_due bump)
  | step {s s' : GState} : GReach s → GStep s s' → GReach s'

/-- Sum of `contributed` over the member records with has_paid = true. -/
def paidSum : List MemberAccount → Nat
  | [] => 0
  | m :: rest => (if m.has_paid then m.contributed else 0) + paidSum rest

/-- Sample group record: owner 1, due time 100, advisory cost 300. -/
def sampleGroup : GroupAccount := create_group 1 "netflix" 300 100

/-- Sample group record after deactivation. -/
def inactiveGroup : GroupAccount := { sampleGroup with is_active := false }

/-- Sample payout context: escrow holds 50, the escrow token account is
owned by the derived escrow authority and funded with 50. -/
def payoutCtx : ExecutePayout :=
  ⟨sampleGroup, 7, ⟨7, 50, 0⟩, ⟨derivedAuthority 7 0, 50⟩, ⟨9, 0⟩⟩

/-- Deposit context whose member record is already paid while the group is
inactive. -/
def inactivePaidCtx : DepositFunds :=
  ⟨inactiveGroup, 7, ⟨7, 2, 5, true⟩, 2, ⟨2, 10⟩, ⟨0, 0⟩, ⟨7, 5, 0⟩⟩

/-- Deposit context whose member record is already paid while the group is
still active. -/
def activePaidCtx : DepositFunds :=
  ⟨sampleGroup, 7, ⟨7, 2, 5, true⟩, 2, ⟨2, 10⟩, ⟨0, 0⟩, ⟨7, 5, 0⟩⟩

/-- Deposit context on an inactive group with an unpaid member. -/
def inactiveDepositCtx : DepositFunds :=
  ⟨inactiveGroup, 7, ⟨7, 2, 0, false⟩, 2, ⟨2, 10⟩, ⟨0, 0⟩, ⟨7, 50, 0⟩⟩

/-- Deposit context whose signer (authority 2) differs from the recorded
member authority (member.member = 1). -/
def wrongSignerCtx : DepositFunds :=
  ⟨sampleGroup, 7, ⟨7, 1, 0, false⟩, 2, ⟨2, 10⟩, ⟨0, 0⟩, ⟨7, 0, 0⟩⟩

/-- Deposit context whose signer does not own the source token account. -/
def badAuthCtx : DepositFunds :=
  ⟨sampleGroup, 7, ⟨7, 2, 0, false⟩, 2, ⟨5, 10⟩, ⟨0, 0⟩, ⟨7, 0, 0⟩⟩

/-- Deposit context for a zero-amount deposit. -/
def zeroDepositCtx : DepositFunds :=
  ⟨sampleGroup, 7, ⟨7, 2, 0, false⟩, 2, ⟨2, 10⟩, ⟨0, 0⟩, ⟨7, 0, 0⟩⟩

/-- Deposit context whose escrow already records 2 ^ 64 - 1. -/
def fullEscrowCtx : DepositFunds :=
  ⟨sampleGroup, 7, ⟨7, 2, 0, false⟩, 2, ⟨2, 10⟩, ⟨0, 0⟩,
   ⟨7, U64_MOD - 1, 0⟩⟩

/-- Deposit context whose member record (group 99) and escrow record
(group 55) both belong to other groups than the passed group (address
7). -/
def mismatchDepositCtx : DepositFunds :=
  ⟨sampleGroup, 7, ⟨99, 2, 0, false⟩, 2, ⟨2, 10⟩, ⟨0, 0⟩, ⟨55, 0, 0⟩⟩

/-- Payout context whose escrow record belongs to another group (group
55, while the passed group has address 7). -/
def mismatchPayoutCtx : ExecutePayout :=
  ⟨sampleGroup, 7, ⟨55, 50, 0⟩, ⟨derivedAuthority 7 0, 50⟩, ⟨9, 0⟩⟩

/-- State reached by two invitations and two deposits of 2 ^ 63 each on
the sample group: the recorded contributions sum to 2 ^ 64 while the
wrapped u64 running total is 0. -/
def overflowState : GState :=
  ⟨7, sampleGroup, ⟨7, 0, 0⟩,
   [⟨7, 2, 2 ^ 63, true⟩, ⟨7, 3, 2 ^ 63, true⟩]⟩

/-- Decidable equality of instruction results, so that concrete runs can
be settled by `decide`. -/
instance {ε α : Type} [DecidableEq ε] [DecidableEq α] :
    DecidableEq (Except ε α) := fun a b =>
  match a, b with
  | .error x, .error y =>
    if h : x = y then .isTrue (by rw [h])
    else .isFalse fun hc => h (Except.error.inj hc)
  | .error _, .ok _ => .isFalse fun hc => Except.noConfusion hc
  | .ok _, .error _ => .isFalse fun hc => Except.noConfusion hc
  | .ok x, .ok y =>
    if h : x = y then .isTrue (by rw [h])
    else .isFalse fun hc => h (Except.ok.inj hc)

theorem transfer_ok_inv {src dst : TokenAccount} {authority amount : Nat}
    {p : TokenAccount × TokenAccount}
    (h : transfer src dst authority amount = .ok p) :
    authority = src.owner ∧ amount ≤ src.amount ∧
    p = ({ src with amount := src.amount - amount },
         { dst with amount := dst.amount + amount }) := by
  unfold transfer at h
  split at h
  · exact Except.noConfusion h
  · next hown =>
    split at h
    · exact Except.noConfusion h
    · next hbal =>
      refine ⟨by omega, by omega, ?_⟩
      exact (Except.ok.inj h).symm

theorem transfer_ok_of {src dst : TokenAccount} {authority amount : Nat}
    (hown : authority = src.owner) (hbal : amount ≤ src.amount) :
    transfer src dst authority amount
      = .ok ({ src with amount := src.amount - amount },
             { dst with amount := dst.amount + amount }) := by
  unfold transfer
  rw [if_neg (by simp [hown]), if_neg (by omega)]

theorem transfer_unauthorized {src dst : TokenAccount} {authority amount : Nat}
    (hown : authority ≠ src.owner) :
    transfer src dst authority amount = .error .unauthorized := by
  unfold transfer
  rw [if_pos hown]

theorem deposit_funds_ok_inv {ctx : DepositFunds} {amount : Nat}
    {r : DepositFunds} (h : deposit_funds ctx amount = .ok r) :
    ctx.group.is_active = true ∧ ctx.member.has_paid = false ∧
    r.group = ctx.group ∧ r.group_key = ctx.group_key ∧
    r.member_authority = ctx.member_authority ∧
    r.member = { ctx.member with contributed := amount, has_paid := true } ∧
    r.escrow = { ctx.escrow with
      total_held := (ctx.escrow.total_held + amount) % U64_MOD } := by
  unfold deposit_funds at h
  split at h
  · next hact =>
    split at h
    · exact Except.noConfusion h
    · next hpaid =>
      split at h
      · exact Except.noConfusion h
      · next src dst heq =>
        have hr := Except.ok.inj h
        subst hr
        exact ⟨hact, Bool.not_eq_true _ ▸ (by exact hpaid), rfl, rfl, rfl,
          rfl, rfl⟩
  · next hact =>
    exact Except.noConfusion h

theorem deposit_funds_inactive {ctx : DepositFunds} {amount : Nat}
    (h : ctx.group.is_active = false) :
    deposit_funds ctx amount = .error (.custom .InactiveGroup) := by
  unfold deposit_funds
  rw [if_neg (by simp [h])]

theorem deposit_funds_ok_of {ctx : DepositFunds} {amount : Nat}
    (hact : ctx.group.is_active = true)
    (hpaid : ctx.member.has_paid = false)
    (hown : ctx.member_authority = ctx.from_token_account.owner)
    (hbal : amount ≤ ctx.from_token_account.amount) :
    deposit_funds ctx amount = .ok { ctx with
      from_token_account := { ctx.from_token_account with
        amount := ctx.from_token_account.amount - amount },
      escrow_token_account := { ctx.escrow_token_account with
        amount := ctx.escrow_token_account.amount + amount },
      member := { ctx.member with contributed := amount, has_paid := true },
      escrow := { ctx.escrow with
        total_held := (ctx.escrow.total_held + amount) % U64_MOD } } := by
  unfold deposit_funds
  rw [if_pos hact, if_neg (by simp [hpaid]), transfer_ok_of hown hbal]

theorem execute_payout_ok_inv {ctx : ExecutePayout} {now : Int}
    {r : ExecutePayout} (h : execute_payout ctx now = .ok r) :
    ctx.group.subscription_due ≤ now ∧
    r.group = { ctx.group with is_active := false } ∧
    r.group_key = ctx.group_key ∧ r.escrow = ctx.escrow := by
  unfold execute_payout at h
  split at h
  · next hdue =>
    split at h
    · exact Except.noConfusion h
    · next src dst heq =>
      have hr := Except.ok.inj h
      subst hr
      exact ⟨hdue, rfl, rfl, rfl⟩
  · exact Except.noConfusion h

theorem execute_payout_no_custom_error {ctx : ExecutePayout} {now : Int}
    (hdue : ctx.group.subscription_due ≤ now) (e : CustomError) :
    execute_payout ctx now ≠ .error (.custom e) := by
  unfold execute_payout
  rw [if_pos hdue]
  split
  · intro hc
    exact ProgErr.noConfusion (Except.error.inj hc)
  · exact fun hc => Except.noConfusion hc

theorem paidSum_append (l1 l2 : List MemberAccount) :
    paidSum (l1 ++ l2) = paidSum l1 + paidSum l2 := by
  induction l1 with
  | nil => simp [paidSum]
  | cons a t ih => simp [paidSum, ih, Nat.add_assoc]

theorem paidSum_set (l : List MemberAccount) (i : Nat) (m : MemberAccount)
    (hi : i < l.length) (hnp : (l.get ⟨i, hi⟩).has_paid = false) :
    paidSum (l.set i m) =
      paidSum l + (if m.has_paid then m.contributed else 0) := by
  induction l generalizing i with
  | nil => exact absurd hi (by simp)
  | cons a t ih =>
    cases i with
    | zero =>
      simp only [List.get] at hnp
      simp [List.set, paidSum, hnp]
      omega
    | succ n =>
      simp only [List.get] at hnp
      have hn : n < t.length := by
        simpa using hi
      simp [List.set, paidSum, ih n hn hnp]
      omega

theorem reach_total_held_mod {s : GState} (h : GReach s) :
    s.escrow.total_held = paidSum s.members % U64_MOD := by
  induction h with
  | init group_key owner group_name total_cost subscription_due bump =>
    simp [initState, paidSum]
  | step hr hst ih =>
    rename_i t t'
    cases hst with
    | invite auth =>
      simpa [invite_member, paidSum_append, paidSum] using ih
    | deposit i hi auth ftk etk amount hamt r hok =>
      obtain ⟨hact, hpaid, hg, hgk, hma, hm, he⟩ := deposit_funds_ok_inv hok
      show r.escrow.total_held = paidSum (t.members.set i r.member) % U64_MOD
      rw [he, paidSum_set t.members i r.member hi hpaid, hm, ih]
      simp [Nat.mod_add_mod]

theorem reach_total_held {s : GState} (h : GReach s)
    (hlt : paidSum s.members < U64_MOD) :
    s.escrow.total_held = paidSum s.members := by
  rw [reach_total_held_mod h, Nat.mod_eq_of_lt hlt]

/-- Claim C1, amended: for every state reachable by create_group,
invite_member and deposit_funds (before payout), escrow.total_held equals
the sum of contributed over the paid members reduced modulo 2 ^ 64; the
unreduced equality of the original claim fails once the sum wraps (see
the counterexample). -/
theorem C1_total_held_eq_paidSum_mod {s : GState} (h : GReach s) :
    s.escrow.total_held = paidSum s.members % U64_MOD :=
  reach_total_held_mod h

/-- Claim C1, counterexample: two deposits of 2 ^ 63 each reach a state
whose wrapped running total is 0 while the contributions of the paid
members sum to 2 ^ 64, so total_held does not equal the sum. -/
theorem C1_counterexample :
    GReach overflowState ∧
    overflowState.escrow.total_held ≠ paidSum overflowState.members := by
  constructor
  · have h0 : GReach (⟨7, sampleGroup, ⟨7, 0, 0⟩, []⟩ : GState) :=
      GReach.init 7 1 "netflix" 300 100 0
    have h1 : GReach
        (⟨7, sampleGroup, ⟨7, 0, 0⟩, [⟨7, 2, 0, false⟩]⟩ : GState) :=
      GReach.step h0 (GStep.invite _ 2)
    have h2 : GReach (⟨7, sampleGroup, ⟨7, 0, 0⟩,
        [⟨7, 2, 0, false⟩, ⟨7, 3, 0, false⟩]⟩ : GState) :=
      GReach.step h1 (GStep.invite _ 3)
    have h3 : GReach (⟨7, sampleGroup, ⟨7, 2 ^ 63, 0⟩,
        [⟨7, 2, 2 ^ 63, true⟩, ⟨7, 3, 0, false⟩]⟩ : GState) :=
      GReach.step h2 (GStep.deposit (⟨7, sampleGroup, ⟨7, 0, 0⟩,
        [⟨7, 2, 0, false⟩, ⟨7, 3, 0, false⟩]⟩ : GState) 0
        (Nat.zero_lt_succ 1) 2 ⟨2, 2 ^ 63⟩ ⟨0, 0⟩ (2 ^ 63) (by decide)
        ⟨sampleGroup, 7, ⟨7, 2, 2 ^ 63, true⟩, 2, ⟨2, 0⟩, ⟨0, 2 ^ 63⟩,
         ⟨7, 2 ^ 63, 0⟩⟩ (by rfl))
    exact GReach.step h3 (GStep.deposit (⟨7, sampleGroup, ⟨7, 2 ^ 63, 0⟩,
      [⟨7, 2, 2 ^ 63, true⟩, ⟨7, 3, 0, false⟩]⟩ : GState) 1
      (Nat.succ_lt_succ (Nat.zero_lt_succ 0)) 3 ⟨3, 2 ^ 63⟩ ⟨0, 0⟩ (2 ^ 63)
      (by decide)
      ⟨sampleGroup, 7, ⟨7, 3, 2 ^ 63, true⟩, 3, ⟨3, 0⟩, ⟨0, 2 ^ 63⟩,
       ⟨7, 0, 0⟩⟩ (by rfl))
  · decide

/-- Claim C1, witness: the invariant holds on a concrete reachable
state. -/
theorem C1_witness :
    (initState 7 1 "netflix" 300 100 0).escrow.total_held
      = paidSum (initState 7 1 "netflix" 300 100 0).members % U64_MOD :=
  C1_total_held_eq_paidSum_mod (GReach.init 7 1 "netflix" 300 100 0)

/-- Claim C2: execute_payout called at or after subscription_due, with
the external token transfer succeeding, transfers exactly
escrow.total_held to the supplied destination token account, sets
group.is_active = false, and every deposit_funds on the deactivated group
fails with InactiveGroup. -/
theorem C2_payout_after_due (ctx : ExecutePayout) (now : Int)
    (src dst : TokenAccount)
    (hdue : ctx.group.subscription_due ≤ now)
    (htr : transfer ctx.escrow_token_account ctx.owner_token_account
      (derivedAuthority ctx.group_key ctx.escrow.bump) ctx.escrow.total_held
      = .ok (src, dst)) :
    execute_payout ctx now = .ok { ctx with
      escrow_token_account := src,
      owner_token_account := dst,
      group := { ctx.group with is_active := false } } ∧
    dst.amount = ctx.owner_token_account.amount + ctx.escrow.total_held ∧
    src.amount = ctx.escrow_token_account.amount - ctx.escrow.total_held ∧
    ∀ (dctx : DepositFunds) (amount : Nat),
      dctx.group = { ctx.group with is_active := false } →
      deposit_funds dctx amount = .error (.custom .InactiveGroup) := by
  obtain ⟨hown, hbal, hp⟩ := transfer_ok_inv htr
  injection hp with hsrc hdst
  subst hsrc
  subst hdst
  refine ⟨?_, rfl, rfl, ?_⟩
  · unfold execute_payout
    rw [if_pos hdue, htr]
  · intro dctx amount hg
    exact deposit_funds_inactive (by rw [hg])

/-- Claim C2, witness: a concrete payout at the due time moves the full
50 held to the destination account and deactivates the group, after which
a deposit fails with InactiveGroup. -/
theorem C2_witness :
    execute_payout payoutCtx 100 = .ok { payoutCtx with
      escrow_token_account := ⟨derivedAuthority 7 0, 0⟩,
      owner_token_account := ⟨9, 50⟩,
      group := { payoutCtx.group with is_active := false } } ∧
    deposit_funds inactiveDepositCtx 3 = .error (.custom .InactiveGroup) := by
  have h := C2_payout_after_due payoutCtx 100 ⟨derivedAuthority 7 0, 0⟩
    ⟨9, 50⟩ (by decide) (by decide)
  exact ⟨h.1, h.2.2.2 inactiveDepositCtx 3 rfl⟩

/-- Claim C3: execute_payout called with host time strictly before
subscription_due fails with TooEarly; the returned error carries no
mutated state, so nothing is transferred and the records are
unchanged. -/
theorem C3_payout_too_early (ctx : ExecutePayout) (now : Int)
    (h : now < ctx.group.subscription_due) :
    execute_payout ctx now = .error (.custom .TooEarly) := by
  unfold execute_payout
  rw [if_neg (by omega)]

/-- Claim C3, witness: a concrete payout one tick before the due time
fails with TooEarly. -/
theorem C3_witness :
    execute_payout payoutCtx 99 = .error (.custom .TooEarly) :=
  C3_payout_too_early payoutCtx 99 (by decide)

/-- Claim C4, counterexample: on a member with has_paid = true whose
group is inactive, deposit_funds fails with InactiveGroup, not with
AlreadyPaid as the claim states for any group. -/
theorem C4_counterexample :
    inactivePaidCtx.member.has_paid = true ∧
    deposit_funds inactivePaidCtx 5 ≠ .error (.custom .AlreadyPaid) ∧
    deposit_funds inactivePaidCtx 5 = .error (.custom .InactiveGroup) := by
  decide

/-- Claim C4, amended: a deposit for a member with has_paid = true fails
with AlreadyPaid provided the group is still active; on an inactive group
the is_active check takes precedence and the call fails with
InactiveGroup.  In both cases the error result carries no mutated
state. -/
theorem C4_failed_deposit_errors (ctx : DepositFunds) (amount : Nat) :
    (ctx.group.is_active = true → ctx.member.has_paid = true →
      deposit_funds ctx amount = .error (.custom .AlreadyPaid)) ∧
    (ctx.group.is_active = false →
      deposit_funds ctx amount = .error (.custom .InactiveGroup)) := by
  constructor
  · intro hact hpaid
    unfold deposit_funds
    rw [if_pos hact, if_pos hpaid]
  · intro hact
    exact deposit_funds_inactive hact

/-- Claim C4, witness: both error paths on concrete inputs. -/
theorem C4_witness :
    deposit_funds activePaidCtx 5 = .error (.custom .AlreadyPaid) ∧
    deposit_funds inactiveDepositCtx 5 = .error (.custom .InactiveGroup) :=
  ⟨(C4_failed_deposit_errors activePaidCtx 5).1 rfl rfl,
   (C4_failed_deposit_errors inactiveDepositCtx 5).2 rfl⟩

/-- Claim C5, counterexample: a deposit signed by authority 2 on a member
record whose recorded authority is 1 succeeds and mutates the Member and
Escrow records, contradicting the claim that such a call leaves them
untouched. -/
theorem C5_counterexample :
    wrongSignerCtx.member_authority ≠ wrongSignerCtx.member.member ∧
    deposit_funds wrongSignerCtx 5 = .ok
      ⟨sampleGroup, 7, ⟨7, 1, 5, true⟩, 2, ⟨2, 5⟩, ⟨0, 5⟩, ⟨7, 5, 0⟩⟩ ∧
    (⟨7, 1, 5, true⟩ : MemberAccount) ≠ wrongSignerCtx.member := by
  decide

/-- Claim C5, amended: the only signature requirement of deposit_funds is
that the signing member_authority authorizes the token transfer out of
the supplied source token account; no check binds it to member.member, so
any ctx with an active group, an unpaid member, and a funded source
account owned by the signer succeeds regardless of member.member, while a
signer that does not own the source account fails with unauthorized. -/
theorem C5_deposit_signer_unbound (ctx : DepositFunds) (amount : Nat)
    (hact : ctx.group.is_active = true)
    (hpaid : ctx.member.has_paid = false)
    (hown : ctx.member_authority = ctx.from_token_account.owner)
    (hbal : amount ≤ ctx.from_token_account.amount) :
    deposit_funds ctx amount = .ok { ctx with
      from_token_account := { ctx.from_token_account with
        amount := ctx.from_token_account.amount - amount },
      escrow_token_account := { ctx.escrow_token_account with
        amount := ctx.escrow_token_account.amount + amount },
      member := { ctx.member with contributed := amount, has_paid := true },
      escrow := { ctx.escrow with
        total_held := (ctx.escrow.total_held + amount) % U64_MOD } } ∧
    ∀ (ctx2 : DepositFunds) (amount2 : Nat),
      ctx2.group.is_active = true → ctx2.member.has_paid = false →
      ctx2.member_authority ≠ ctx2.from_token_account.owner →
      deposit_funds ctx2 amount2 = .error (.token .unauthorized) := by
  refine ⟨deposit_funds_ok_of hact hpaid hown hbal, ?_⟩
  intro ctx2 amount2 hact2 hpaid2 hne
  unfold deposit_funds
  rw [if_pos hact2, if_neg (by simp [hpaid2]), transfer_unauthorized hne]

/-- Claim C5, witness: the wrong-signer deposit succeeds on concrete
accounts, and a signer that does not own the source account is rejected
by the external ledger, not by the program. -/
theorem C5_witness :
    deposit_funds wrongSignerCtx 5 = .ok
      ⟨sampleGroup, 7, ⟨7, 1, 5, true⟩, 2, ⟨2, 5⟩, ⟨0, 5⟩, ⟨7, 5, 0⟩⟩ ∧
    deposit_funds badAuthCtx 5 = .error (.token .unauthorized) :=
  ⟨(C5_deposit_signer_unbound wrongSignerCtx 5 rfl rfl rfl (by decide)).1,
   (C5_deposit_signer_unbound wrongSignerCtx 5 rfl rfl rfl (by decide)).2
     badAuthCtx 5 rfl rfl (by decide)⟩

/-- Claim C6: a successful execute_payout leaves the escrow record (in
particular total_held) unchanged and checks no is_active flag, so a
replay at any time past the due time never fails on a check inside this
program (only the external transfer can reject it) and again attempts the
same total_held amount. -/
theorem C6_payout_replay (ctx : ExecutePayout) (now : Int)
    (r : ExecutePayout) (h : execute_payout ctx now = .ok r) :
    r.escrow = ctx.escrow ∧
    r.group = { ctx.group with is_active := false } ∧
    ∀ (etk otk : TokenAccount) (now2 : Int),
      r.group.subscription_due ≤ now2 →
      ∀ e : CustomError,
        execute_payout ⟨r.group, r.group_key, r.escrow, etk, otk⟩ now2
          ≠ .error (.custom e) := by
  obtain ⟨hdue, hg, hgk, he⟩ := execute_payout_ok_inv h
  exact ⟨he, hg, fun etk otk now2 hdue2 e =>
    @execute_payout_no_custom_error
      ⟨r.group, r.group_key, r.escrow, etk, otk⟩ now2 hdue2 e⟩

/-- Claim C6, witness: after a concrete successful payout the escrow
still records 50, and a replay of execute_payout at the same time is not
rejected by TooEarly or any other program error. -/
theorem C6_witness :
    execute_payout payoutCtx 100 = .ok
      ⟨inactiveGroup, 7, ⟨7, 50, 0⟩, ⟨derivedAuthority 7 0, 0⟩, ⟨9, 50⟩⟩ ∧
    (⟨7, 50, 0⟩ : EscrowAccount) = payoutCtx.escrow ∧
    execute_payout
        ⟨inactiveGroup, 7, ⟨7, 50, 0⟩, ⟨derivedAuthority 7 0, 0⟩, ⟨9, 0⟩⟩ 100
      ≠ .error (.custom .TooEarly) := by
  have h := C6_payout_replay payoutCtx 100
    ⟨inactiveGroup, 7, ⟨7, 50, 0⟩, ⟨derivedAuthority 7 0, 0⟩, ⟨9, 50⟩⟩ rfl
  exact ⟨rfl, h.1, h.2.2 ⟨derivedAuthority 7 0, 0⟩ ⟨9, 0⟩ 100 (by decide)
    .TooEarly⟩

/-- Claim C7, counterexample: with total_held at 2 ^ 64 - 1 a deposit of
1 succeeds but stores 0, so total_held is not increased by the amount;
the unchecked u64 addition wraps. -/
theorem C7_counterexample :
    deposit_funds fullEscrowCtx 1 = .ok
      ⟨sampleGroup, 7, ⟨7, 2, 1, true⟩, 2, ⟨2, 9⟩, ⟨0, 1⟩, ⟨7, 0, 0⟩⟩ ∧
    fullEscrowCtx.escrow.total_held + 1 ≠ 0 := by
  decide

/-- Claim C7, amended: for every amount (including zero), if the group is
active, the member unpaid, and the external transfer succeeds,
deposit_funds succeeds, assigns member.contributed = amount, sets
member.has_paid = true, and stores (total_held + amount) mod 2 ^ 64 —
an increase by exactly amount whenever the u64 addition does not wrap; no
hypothesis relates amount to group.total_cost or any fair-share
figure. -/
theorem C7_deposit_effect (ctx : DepositFunds) (amount : Nat)
    (src dst : TokenAccount)
    (hact : ctx.group.is_active = true)
    (hpaid : ctx.member.has_paid = false)
    (htr : transfer ctx.from_token_account ctx.escrow_token_account
      ctx.member_authority amount = .ok (src, dst)) :
    deposit_funds ctx amount = .ok { ctx with
      from_token_account := src,
      escrow_token_account := dst,
      member := { ctx.member with contributed := amount, has_paid := true },
      escrow := { ctx.escrow with
        total_held := (ctx.escrow.total_held + amount) % U64_MOD } } := by
  unfold deposit_funds
  rw [if_pos hact, if_neg (by simp [hpaid]), htr]

/-- Claim C7, witness: a zero-amount deposit is accepted as a full, final
payment for the member. -/
theorem C7_witness :
    deposit_funds zeroDepositCtx 0 = .ok
      ⟨sampleGroup, 7, ⟨7, 2, 0, true⟩, 2, ⟨2, 10⟩, ⟨0, 0⟩, ⟨7, 0, 0⟩⟩ :=
  C7_deposit_effect zeroDepositCtx 0 ⟨2, 10⟩ ⟨0, 0⟩ rfl rfl (by decide)

/-- Claim C8: invite_member allocates a member record bound to the given
group address and authority with contributed = 0 and has_paid = false,
leaves the group record (including member_count) entirely unchanged, and
the same authority can be invited twice, yielding two independent member
records on one group. -/
theorem C8_invite_member_effect :
    (∀ ctx : InviteMember,
      invite_member ctx =
        (ctx.group,
         { group := ctx.group_key, member := ctx.member_authority,
           contributed := 0, has_paid := false })) ∧
    ∀ (s : GState) (auth : Nat), GReach s →
      GReach { s with members := s.members ++
        [{ group := s.group_key, member := auth, contributed := 0,
           has_paid := false },
         { group := s.group_key, member := auth, contributed := 0,
           has_paid := false }] } := by
  refine ⟨fun ctx => rfl, fun s auth h => ?_⟩
  have h1 := GReach.step h (GStep.invite s auth)
  have h2 := GReach.step h1 (GStep.invite _ auth)
  simpa [invite_member, List.append_assoc] using h2

/-- Claim C8, witness: inviting authority 2 twice to the just-created
sample group yields two identical member records. -/
theorem C8_witness :
    invite_member ⟨sampleGroup, 7, 2⟩ = (sampleGroup, ⟨7, 2, 0, false⟩) ∧
    GReach { initState 7 1 "netflix" 300 100 0 with
      members := [⟨7, 2, 0, false⟩, ⟨7, 2, 0, false⟩] } :=
  ⟨C8_invite_member_effect.1 ⟨sampleGroup, 7, 2⟩,
   C8_invite_member_effect.2 (initState 7 1 "netflix" 300 100 0) 2
     (GReach.init 7 1 "netflix" 300 100 0)⟩

/-- Claim C9: neither deposit_funds nor execute_payout checks that the
passed Member or Escrow record belongs to the passed group: concrete
calls whose member record references group 99 and whose escrow record
references group 55, against the group stored at address 7, still
succeed. -/
theorem C9_no_record_ownership_checks :
    mismatchDepositCtx.member.group ≠ mismatchDepositCtx.group_key ∧
    mismatchDepositCtx.escrow.group ≠ mismatchDepositCtx.group_key ∧
    deposit_funds mismatchDepositCtx 5 = .ok
      ⟨sampleGroup, 7, ⟨99, 2, 5, true⟩, 2, ⟨2, 5⟩, ⟨0, 5⟩, ⟨55, 5, 0⟩⟩ ∧
    mismatchPayoutCtx.escrow.group ≠ mismatchPayoutCtx.group_key ∧
    execute_payout mismatchPayoutCtx 100 = .ok
      ⟨inactiveGroup, 7, ⟨55, 50, 0⟩, ⟨derivedAuthority 7 0, 0⟩, ⟨9, 50⟩⟩ := by
  decide

/-- Claim C10: the total_held update of deposit_funds is unchecked 64-bit
arithmetic — a successful deposit stores (old + amount) mod 2 ^ 64 — and
therefore the sum invariant holds in its unreduced form on reachable
states whose cumulative accepted deposits stay below 2 ^ 64. -/
theorem C10_wrapping_update :
    (∀ (ctx : DepositFunds) (amount : Nat) (r : DepositFunds),
      deposit_funds ctx amount = .ok r →
      r.escrow.total_held = (ctx.escrow.total_held + amount) % U64_MOD) ∧
    ∀ s : GState, GReach s → paidSum s.members < U64_MOD →
      s.escrow.total_held = paidSum s.members := by
  constructor
  · intro ctx amount r h
    rw [(deposit_funds_ok_inv h).2.2.2.2.2.2]
  · intro s h hlt
    exact reach_total_held h hlt

/-- Claim C10, witness: the wrapped update on a concrete deposit, and the
exact sum invariant on a concrete reachable state below the bound. -/
theorem C10_witness :
    (⟨7, 5, 0⟩ : EscrowAccount).total_held = (0 + 5) % U64_MOD ∧
    (initState 7 1 "netflix" 300 100 0).escrow.total_held
      = paidSum (initState 7 1 "netflix" 300 100 0).members := by
  constructor
  · exact C10_wrapping_update.1 zeroDepositCtx 5
      ⟨sampleGroup, 7, ⟨7, 2, 5, true⟩, 2, ⟨2, 5⟩, ⟨0, 5⟩, ⟨7, 5, 0⟩⟩ rfl
  · exact C10_wrapping_update.2 (initState 7 1 "netflix" 300 100 0)
      (GReach.init 7 1 "netflix" 300 100 0) (by decide)

end SplitFunds
